import Mathlib

/-!
Verification of the rule-matching and sequential-deduction engine of the
Object-bookkeeping repository (src/rule_engine.py, with the rule-validation
endpoint of src/app.py).

The Python code is shallowly embedded below: dictionaries with optional keys
become structures of `Option` fields read through `Option.getD` with the same
defaults the Python `dict.get` calls use, Python floats become `ℚ` (the
idealised exact-decimal reading of the arithmetic), `float(...)` applied to a
possibly non-numeric JSON value becomes `floatOfValue` returning `Except`,
and Python `round(x, 2)` / `f-string :.2f` become `round2` / `fmt2` built on
round-half-to-even.
-/

namespace RuleEngine

/-- Round half to even to the nearest integer, mirroring Python `round`. -/
def roundHalfEven (q : ℚ) : ℤ :=
  let f : ℤ := Int.floor q
  let r : ℚ := q - (f : ℚ)
  if r < 1/2 then f
  else if 1/2 < r then f + 1
  else if f % 2 = 0 then f else f + 1

/-- Python `round(x, 2)`: round to two decimal places, half to even. -/
def round2 (q : ℚ) : ℚ := ((roundHalfEven (q * 100) : ℤ) : ℚ) / 100

/-- Python `f"{x:.2f}"`: render with exactly two decimal digits. -/
def fmt2 (q : ℚ) : String :=
  let c : ℤ := roundHalfEven (q * 100)
  let sign := if c < 0 then "-" else ""
  let n : ℕ := c.natAbs
  let r : ℕ := n % 100
  sign ++ toString (n / 100) ++ "." ++ (if r < 10 then "0" else "") ++ toString r

/-- Python `str.lower()` (ASCII reading), character by character. -/
def lowerStr (s : String) : String := String.mk (s.data.map Char.toLower)

/-- The whitespace characters stripped by Python `str.strip()`. -/
def isSpaceChar (c : Char) : Bool :=
  c == ' ' || c == '\t' || c == '\n' || c == '\r' || c == '\x0b' || c == '\x0c'

/-- Python `str.strip()`: drop whitespace from both ends. -/
def stripStr (s : String) : String :=
  String.mk (((s.data.dropWhile isSpaceChar).reverse.dropWhile isSpaceChar).reverse)

/-- Python slicing `s[:n]` on a string. -/
def takeStr (s : String) (n : ℕ) : String := String.mk (s.data.take n)

/-- Character-level interleaving of a separator, Python `sep.join`. -/
def joinWith (sep : List Char) : List (List Char) → List Char
  | [] => []
  | [x] => x
  | x :: y :: xs => x ++ sep ++ joinWith sep (y :: xs)

/-- Python `sep.join(parts)`. -/
def joinStr (sep : String) (parts : List String) : String :=
  String.mk (joinWith sep.data (parts.map String.data))

/-- Python `s.replace("_", " ")` for the single-character pattern the source
uses. -/
def underscoreToSpace (s : String) : String :=
  String.mk (s.data.map (fun c => if c = '_' then ' ' else c))

/-- Character stream of Python `str.title()` (ASCII reading): an alphabetic
character is upper-cased when the previous character was not alphabetic and
lower-cased otherwise; other characters pass through. -/
def titleChars : List Char → Bool → List Char
  | [], _ => []
  | c :: cs, prev =>
    (if c.isAlpha then (if prev then c.toLower else c.toUpper) else c) ::
      titleChars cs c.isAlpha

/-- Python `str.title()`. -/
def pyTitle (s : String) : String := String.mk (titleChars s.data false)

/-- Python `comp_type.replace("_", " ").title()`, the display base name of a
component type. -/
def displayBase (t : String) : String := pyTitle (underscoreToSpace t)

/-- Boolean substring test on character lists: does `needle` occur as a
contiguous run inside the second list? -/
def containsSub (needle : List Char) : List Char → Bool
  | [] => needle.isEmpty
  | c :: t => needle.isPrefixOf (c :: t) || containsSub needle t

/-- Python `needle in hay` on strings (substring containment). -/
def strContainsSub (hay needle : String) : Bool := containsSub needle.data hay.data

/-- A JSON value sitting in a numeric position of a component record: either a
number, or a non-numeric string on which Python `float(...)` raises. -/
inductive PyVal where
  | num (q : ℚ)
  | junk (s : String)
deriving DecidableEq

/-- Python `float(component.get("value", 0))`: a missing key defaults to `0`,
a numeric value converts, a non-numeric string raises `ValueError`. -/
def floatOfValue : Option PyVal → Except String ℚ
  | none => .ok 0
  | some (.num q) => .ok q
  | some (.junk s) => .error ("could not convert string to float: " ++ s)

/-- One allocation component of a rule (a loosely-typed dict in the source;
every key may be absent). -/
structure Component where
  type : Option String := none
  label : Option String := none
  calc_type : Option String := none
  value : Option PyVal := none
  order : Option Int := none
deriving DecidableEq

/-- One product rule: keywords to match and components to apply. -/
structure Rule where
  description : Option String := none
  keywords : List String := []
  components : List Component := []
deriving DecidableEq

/-- One order line item with its searchable product metadata. -/
structure LineItem where
  name : Option String := none
  title : Option String := none
  vendor : Option String := none
  product_type : Option String := none
  tags : List String := []
  collections : List String := []
deriving DecidableEq

/-- One Shopify tax line. -/
structure TaxLine where
  title : Option String := none
  amount : Option ℚ := none
  rate : Option ℚ := none
  rate_percentage : Option ℚ := none
deriving DecidableEq

/-- One order. Monetary fields are the `float(...)` of the corresponding keys
with default `0`; the customer sub-dictionary is flattened into its two name
fields. -/
structure Order where
  id : Option String := none
  order_number : Option String := none
  created_at : Option String := none
  email : Option String := none
  customer_first : Option String := none
  customer_last : Option String := none
  line_items : List LineItem := []
  subtotal_price : ℚ := 0
  total_price : ℚ := 0
  total_cost : ℚ := 0
  tax_lines : List TaxLine := []
deriving DecidableEq

/-- Python `line_item.get("name") or line_item.get("title", "")`. -/
def itemTitle (li : LineItem) : String :=
  match li.name with
  | some s => if s = "" then li.title.getD "" else s
  | none => li.title.getD ""

/-- The searchable fields collected by `find_matching_rule`, lower-cased, in
the fixed order title/name, vendor, product type, tags, collections, with
empty fields skipped. -/
def searchableTexts (li : LineItem) : List String :=
  (let t := itemTitle li; if t = "" then [] else [lowerStr t]) ++
  (let v := li.vendor.getD ""; if v = "" then [] else [lowerStr v]) ++
  (let p := li.product_type.getD ""; if p = "" then [] else [lowerStr p]) ++
  ((li.tags.filter (fun tg => tg != "")).map lowerStr) ++
  ((li.collections.filter (fun cl => cl != "")).map lowerStr)

/-- Python `" ".join(searchable_texts)`. -/
def searchableText (li : LineItem) : String :=
  joinStr " " (searchableTexts li)

/-- The inner keyword loop of `find_matching_rule`: does any keyword of the
list, lower-cased, occur in the combined text? First hit returns. -/
def keywordHit (text : String) : List String → Bool
  | [] => false
  | kw :: kws => strContainsSub text (lowerStr kw) || keywordHit text kws

/-- The outer rule loop of `find_matching_rule`: first rule in input order
with a keyword hit. -/
def findRuleAux (text : String) : List Rule → Option Rule
  | [] => none
  | r :: rs => if keywordHit text r.keywords then some r else findRuleAux text rs

/-- Python `RuleEngine.find_matching_rule`. -/
def findMatchingRule (rules : List Rule) (li : LineItem) : Option Rule :=
  findRuleAux (searchableText li) rules

/-- The order-level loop of `calculate_order_breakdown`: scan line items in
order, stop at the first one whose `find_matching_rule` result is a rule. -/
def firstMatchedRule (rules : List Rule) : List LineItem → Option Rule
  | [] => none
  | li :: lis =>
    match findMatchingRule rules li with
    | some r => some r
    | none => firstMatchedRule rules lis

/-- One entry of `component_details`: type, stripped label, display name and
full-precision amount. -/
structure Detail where
  type : String
  label : String
  display_name : String
  amount : ℚ
deriving DecidableEq

/-- Running state of the allocation pass: the remaining amount, the three
accumulating totals and the detail list. -/
structure AllocState where
  remaining : ℚ
  investor : ℚ
  consigner : ℚ
  vendor : ℚ
  details : List Detail
deriving DecidableEq

/-- Display name of an allocation component: the title-cased type, suffixed
with `" - label"` when the stripped label is nonempty. -/
def displayNameFor (comp_type comp_label : String) : String :=
  if comp_label = "" then displayBase comp_type
  else displayBase comp_type ++ " - " ++ comp_label

/-- One iteration of the component loop of `calculate_order_breakdown`:
`revenue` components are skipped; otherwise the value is converted with
`float` (which may raise), a `flat` component deducts its value and any other
`calc_type` falls into the percentage branch deducting
`remaining * (value / 100)`; the amount is recorded as a detail and added to
the total matching the component type, unknown types accumulating nowhere. -/
def applyComponent (s : AllocState) (c : Component) : Except String AllocState :=
  let comp_type := c.type.getD ""
  let comp_label := stripStr (c.label.getD "")
  if comp_type = "revenue" then .ok s
  else
    match floatOfValue c.value with
    | .error e => .error e
    | .ok value =>
      let calc_type := c.calc_type.getD "percentage"
      let amount := if calc_type = "flat" then value else s.remaining * (value / 100)
      .ok { remaining := s.remaining - amount
            investor := s.investor + (if comp_type = "investor" then amount else 0)
            consigner := s.consigner + (if comp_type = "consigner" then amount else 0)
            vendor := s.vendor + (if comp_type = "vendor" then amount else 0)
            details := s.details ++
              [⟨comp_type, comp_label, displayNameFor comp_type comp_label, amount⟩] }

/-- The sequential component loop, propagating the first `float` failure. -/
def applyComponents (s : AllocState) : List Component → Except String AllocState
  | [] => .ok s
  | c :: cs =>
    match applyComponent s c with
    | .error e => .error e
    | .ok s1 => applyComponents s1 cs

/-- Python `x.get("order", 999)`, the sort key of a component. -/
def orderKey (c : Component) : Int := c.order.getD 999

/-- Stable insertion by ascending `orderKey` (an element is placed before the
first element of greater-or-equal key). -/
def insertByOrder (c : Component) : List Component → List Component
  | [] => [c]
  | d :: ds => if orderKey c ≤ orderKey d then c :: d :: ds else d :: insertByOrder c ds

/-- Python `sorted(components, key=lambda x: x.get("order", 999))`: a stable
ascending sort by the order key. -/
def sortComponents : List Component → List Component
  | [] => []
  | c :: cs => insertByOrder c (sortComponents cs)

/-- The filter on line 155 of the source: tax-typed components are removed
before the allocation pass. -/
def nonTaxComponents (cs : List Component) : List Component :=
  cs.filter (fun c => !(c.type.getD "" == "state_taxes" || c.type.getD "" == "federal_taxes"))

/-- Running state of the tax pass. -/
structure TaxState where
  remaining : ℚ
  state_taxes : ℚ
  federal_taxes : ℚ
  details : List Detail
deriving DecidableEq

/-- Rate determination and tax amount of one tax line: prefer a truthy
`rate_percentage` (scale 0 to 100), else a truthy `rate` (scale 0 to 1,
applied directly), else the proportional fallback `amount / total_price`,
unavailable (Python `continue`) when `total_price` is not positive. A missing
optional numeric field and a present zero are equally falsy, so truthiness is
read off the defaulted value. -/
def taxAmountOf (total_price remaining : ℚ) (tl : TaxLine) : Option ℚ :=
  if tl.rate_percentage.getD 0 ≠ 0 then
    some (remaining * (tl.rate_percentage.getD 0 / 100))
  else if tl.rate.getD 0 ≠ 0 then
    some (remaining * tl.rate.getD 0)
  else if 0 < total_price then
    some (remaining * (tl.amount.getD 0 / total_price))
  else none

/-- One iteration of the tax loop at position `i`: subtract the tax amount
from the remaining amount and assign it positionally — index 0 to state
taxes, index 1 to federal taxes, later indices added into state taxes with an
"Additional Tax (title)" detail line. A line with no determinable amount is
skipped unchanged. -/
def taxLineStep (total_price : ℚ) (i : ℕ) (st : TaxState) (tl : TaxLine) : TaxState :=
  match taxAmountOf total_price st.remaining tl with
  | none => st
  | some ta =>
    if i = 0 then
      { st with remaining := st.remaining - ta, state_taxes := ta,
                details := st.details ++ [⟨"state_taxes", "", "State Taxes", ta⟩] }
    else if i = 1 then
      { st with remaining := st.remaining - ta, federal_taxes := ta,
                details := st.details ++ [⟨"federal_taxes", "", "Federal Taxes", ta⟩] }
    else
      { st with remaining := st.remaining - ta,
                state_taxes := st.state_taxes + ta,
                details := st.details ++
                  [⟨"state_taxes", "", "Additional Tax (" ++ tl.title.getD "Tax" ++ ")", ta⟩] }

/-- The enumerated tax loop. -/
def taxPassAux (total_price : ℚ) : ℕ → TaxState → List TaxLine → TaxState
  | _, st, [] => st
  | i, st, tl :: tls => taxPassAux total_price (i + 1) (taxLineStep total_price i st tl) tls

/-- The guarded tax pass: runs only when the order has tax lines and the
remaining amount is positive. -/
def taxPass (total_price : ℚ) (tax_lines : List TaxLine) (st : TaxState) : TaxState :=
  if tax_lines ≠ [] ∧ 0 < st.remaining then taxPassAux total_price 0 st tax_lines else st

/-- The output record of `calculate_order_breakdown`, restricted to the keys
the specification's claims concern (the duplicated `"vendor"` dict key of the
source resolves to the numeric total, which is kept here). -/
structure Breakdown where
  order_id : String
  order_number : String
  date : String
  customer : String
  products : String
  order_total : ℚ
  total_cost : ℚ
  base_amount : ℚ
  revenue : ℚ
  investor : ℚ
  state_taxes : ℚ
  federal_taxes : ℚ
  consigner : ℚ
  vendor : ℚ
  component_breakdown : List String
  matched_rules : String
deriving DecidableEq

/-- Customer display name: first and last name joined and stripped, the email
(default "Unknown") when empty. -/
def customerName (o : Order) : String :=
  let n := stripStr (o.customer_first.getD "" ++ " " ++ o.customer_last.getD "")
  if n = "" then o.email.getD "Unknown" else n

/-- The configured base: `subtotal_price` when the configuration string is
"subtotal", else `total_price`. -/
def chosenBase (base_cfg : String) (o : Order) : ℚ :=
  if base_cfg = "subtotal" then o.subtotal_price else o.total_price

/-- The initial allocation state over a base amount. -/
def initAlloc (base : ℚ) : AllocState := ⟨base, 0, 0, 0, []⟩

/-- One rendered `component_breakdown` line. -/
def renderDetail (d : Detail) : String := d.display_name ++ ": $" ++ fmt2 d.amount

/-- The nonempty product descriptions of the line items. -/
def productDescriptions (o : Order) : List String :=
  (o.line_items.map itemTitle).filter (fun s => s != "")

/-- Python `RuleEngine.calculate_order_breakdown`. -/
def calculateOrderBreakdown (rules : List Rule) (base_cfg : String) (o : Order) :
    Except String Breakdown :=
  let base := max 0 (chosenBase base_cfg o - o.total_cost)
  let common : Breakdown :=
    { order_id := o.id.getD ""
      order_number := o.order_number.getD ""
      date := takeStr (o.created_at.getD "") 10
      customer := customerName o
      products := joinStr ", " (productDescriptions o)
      order_total := o.total_price
      total_cost := round2 o.total_cost
      base_amount := base
      revenue := 0, investor := 0, state_taxes := 0, federal_taxes := 0
      consigner := 0, vendor := 0
      component_breakdown := []
      matched_rules := "No match" }
  match firstMatchedRule rules o.line_items with
  | some r =>
    (match applyComponents (initAlloc base) (sortComponents (nonTaxComponents r.components)) with
     | .error e => .error e
     | .ok a =>
       let t := taxPass o.total_price o.tax_lines ⟨a.remaining, 0, 0, a.details⟩
       .ok { common with
              revenue := round2 (max 0 t.remaining)
              investor := round2 a.investor
              state_taxes := round2 t.state_taxes
              federal_taxes := round2 t.federal_taxes
              consigner := round2 a.consigner
              vendor := round2 a.vendor
              component_breakdown :=
                if t.details.isEmpty then [] else t.details.map renderDetail
              matched_rules := r.description.getD "Unknown rule" })
  | none =>
    .ok { common with revenue := round2 base }

/-- Python `RuleEngine.process_orders`: the plain sequential loop; an
exception in any order's computation propagates and aborts the whole batch. -/
def processOrders (rules : List Rule) (base_cfg : String) : List Order → Except String (List Breakdown)
  | [] => .ok []
  | o :: os =>
    match calculateOrderBreakdown rules base_cfg o with
    | .error e => .error e
    | .ok b =>
      match processOrders rules base_cfg os with
      | .error e => .error e
      | .ok bs => .ok (b :: bs)

/-- The component check of the rule add/update endpoints of `app.py`: every
component must carry the four required keys. -/
def componentHasRequiredFields (c : Component) : Bool :=
  c.type.isSome && c.calc_type.isSome && c.value.isSome && c.order.isSome

/-- The rule-definition-time validation of `app.py` (`add_rule` and the rule
update route): rejects an empty component list and any component missing
`type`, `calc_type`, `value` or `order`; returns the error message, or `none`
on acceptance. -/
def validateRuleComponents (components : List Component) : Option String :=
  if components.isEmpty then some "At least one component is required"
  else if components.all componentHasRequiredFields then none
  else some "All components must have type, calc_type, value, and order"

/-! Claim C1: sequential allocation pass. -/

def c1Rule : Rule :=
  { description := some "Art rule", keywords := ["art"],
    components := [
      { type := some "investor", calc_type := some "percentage", value := some (.num 20), order := some 1 },
      { type := some "consigner", calc_type := some "flat", value := some (.num 10), order := some 2 } ] }

def c1Order : Order :=
  { line_items := [{ title := some "Consignment Art Piece" }],
    subtotal_price := 200, total_price := 200, total_cost := 50 }

/-- C1: for every order with a matched rule the allocation pass applies the
rule's non-tax components sequentially to a running remaining amount starting
at the base amount — a flat component deducts exactly its value, a percentage
component deducts `remaining * (value / 100)` of the current remaining amount,
and each amount accumulates into the total of its type; in particular the
spec scenario (base 200, cost 50, investor 20 percent then consigner flat 10,
no tax lines) yields investor 30, consigner 10, revenue 110 on base 150. -/
theorem claim_C1 :
    (∀ (s : AllocState) (c : Component) (v : ℚ),
        c.calc_type = some "flat" → floatOfValue c.value = .ok v →
        c.type.getD "" ≠ "revenue" →
        (applyComponent s c).map AllocState.remaining = .ok (s.remaining - v)) ∧
    (∀ (s : AllocState) (c : Component) (v : ℚ),
        c.calc_type = some "percentage" → floatOfValue c.value = .ok v →
        c.type.getD "" ≠ "revenue" →
        (applyComponent s c).map AllocState.remaining
          = .ok (s.remaining - s.remaining * (v / 100))) ∧
    (∀ (s : AllocState) (c : Component) (s' : AllocState),
        applyComponent s c = .ok s' → c.type = some "investor" →
        s'.investor = s.investor + (s.remaining - s'.remaining) ∧
        s'.consigner = s.consigner ∧ s'.vendor = s.vendor) ∧
    (∀ (s : AllocState) (c : Component) (s' : AllocState),
        applyComponent s c = .ok s' → c.type = some "consigner" →
        s'.consigner = s.consigner + (s.remaining - s'.remaining) ∧
        s'.investor = s.investor ∧ s'.vendor = s.vendor) ∧
    ((calculateOrderBreakdown [c1Rule] "subtotal" c1Order).toOption.map
        (fun b => (b.investor, b.consigner, b.revenue, b.base_amount))
      = some (30, 10, 110, 150)) := by
  refine ⟨?_, ?_, ?_, ?_, ?_⟩
  · intro s c v hct hv hty
    simp [applyComponent, hv, hct, hty, Except.map]
  · intro s c v hct hv hty
    simp [applyComponent, hv, hct, hty, Except.map]
  · intro s c s' happ hty
    have hty' : c.type.getD "" = "investor" := by rw [hty]; rfl
    rw [applyComponent, hty'] at happ
    rw [if_neg (by decide : ¬("investor" = "revenue"))] at happ
    cases hv : floatOfValue c.value with
    | error e => rw [hv] at happ; cases happ
    | ok v =>
      rw [hv] at happ
      simp only [Except.ok.injEq] at happ
      subst happ
      refine ⟨?_, ?_, ?_⟩ <;> simp
  · intro s c s' happ hty
    have hty' : c.type.getD "" = "consigner" := by rw [hty]; rfl
    rw [applyComponent, hty'] at happ
    rw [if_neg (by decide : ¬("consigner" = "revenue"))] at happ
    cases hv : floatOfValue c.value with
    | error e => rw [hv] at happ; cases happ
    | ok v =>
      rw [hv] at happ
      simp only [Except.ok.injEq] at happ
      subst happ
      refine ⟨?_, ?_, ?_⟩ <;> simp
  · have hm : firstMatchedRule [c1Rule] c1Order.line_items = some c1Rule := by decide
    simp only [calculateOrderBreakdown, hm]
    simp [c1Rule, c1Order, chosenBase, nonTaxComponents, sortComponents, insertByOrder,
      orderKey, applyComponents, applyComponent, floatOfValue, initAlloc, taxPass, taxPassAux,
      taxLineStep, taxAmountOf, Except.toOption]
    norm_num [round2, roundHalfEven]



def c1FlatInv : Component :=
  { type := some "investor", calc_type := some "flat", value := some (.num 10), order := some 1 }

def c1FlatCon : Component :=
  { type := some "consigner", calc_type := some "flat", value := some (.num 10), order := some 1 }

def c1PctInv : Component :=
  { type := some "investor", calc_type := some "percentage", value := some (.num 20), order := some 1 }

def c1InvState : AllocState :=
  ⟨100 - 10, 1 + 10, 2, 3, [⟨"investor", stripStr "", displayNameFor "investor" (stripStr ""), 10⟩]⟩

def c1ConState : AllocState :=
  ⟨100 - 10, 1, 2 + 10, 3, [⟨"consigner", stripStr "", displayNameFor "consigner" (stripStr ""), 10⟩]⟩

/-- Witness for C1: the component-step conjuncts instantiated at the concrete
state (remaining 100, totals 1, 2, 3) with concrete flat and percentage
components. -/
theorem claim_C1_witness :
    ((applyComponent ⟨100, 1, 2, 3, []⟩ c1FlatInv).map AllocState.remaining = .ok (100 - 10)) ∧
    ((applyComponent ⟨100, 1, 2, 3, []⟩ c1PctInv).map AllocState.remaining
      = .ok (100 - 100 * (20 / 100))) ∧
    (c1InvState.investor = (1 : ℚ) + (100 - c1InvState.remaining) ∧
      c1InvState.consigner = 2 ∧ c1InvState.vendor = 3) ∧
    (c1ConState.consigner = (2 : ℚ) + (100 - c1ConState.remaining) ∧
      c1ConState.investor = 1 ∧ c1ConState.vendor = 3) ∧
    ((calculateOrderBreakdown [c1Rule] "subtotal" c1Order).toOption.map
        (fun b => (b.investor, b.consigner, b.revenue, b.base_amount))
      = some (30, 10, 110, 150)) := by
  refine ⟨claim_C1.1 ⟨100, 1, 2, 3, []⟩ c1FlatInv 10 rfl rfl (by decide),
          claim_C1.2.1 ⟨100, 1, 2, 3, []⟩ c1PctInv 20 rfl rfl (by decide),
          claim_C1.2.2.1 ⟨100, 1, 2, 3, []⟩ c1FlatInv c1InvState ?_ rfl,
          claim_C1.2.2.2.1 ⟨100, 1, 2, 3, []⟩ c1FlatCon c1ConState ?_ rfl,
          claim_C1.2.2.2.2⟩
  · simp [applyComponent, c1FlatInv, c1InvState, floatOfValue]
  · simp [applyComponent, c1FlatCon, c1ConState, floatOfValue]

def c2Rule : Rule := { description := some "Consign rule", keywords := ["consign"] }

def c2Item : LineItem := { title := some "Consignment Art Piece" }

def c2Other : LineItem := { title := some "Plain Mug" }

/-- C2: rule matching builds one lower-cased combined searchable text per
line item, scans rules in input order and keywords in input order with
case-insensitive substring containment, returns the first rule with a hit and
`none` when nothing hits; at order level the first line item that matches any
rule decides, later line items are not inspected, and at most one rule is
applied to the whole order. -/
theorem claim_C2 :
    (∀ (text : String) (kws : List String),
        keywordHit text kws = kws.any (fun kw => strContainsSub text (lowerStr kw))) ∧
    (∀ (rules : List Rule) (li : LineItem),
        findMatchingRule rules li
          = rules.find? (fun r => keywordHit (searchableText li) r.keywords)) ∧
    (∀ (rules : List Rule) (li : LineItem) (r : Rule),
        findMatchingRule rules li = some r →
        r ∈ rules ∧ keywordHit (searchableText li) r.keywords = true) ∧
    (∀ (rules : List Rule) (li : LineItem),
        findMatchingRule rules li = none ↔
          ∀ r ∈ rules, keywordHit (searchableText li) r.keywords = false) ∧
    (∀ (rules : List Rule) (l₁ l₂ : List LineItem) (li : LineItem) (r : Rule),
        (∀ x ∈ l₁, findMatchingRule rules x = none) →
        findMatchingRule rules li = some r →
        firstMatchedRule rules (l₁ ++ li :: l₂) = some r) ∧
    (∀ (rules : List Rule) (lis : List LineItem),
        firstMatchedRule rules lis = lis.findSome? (findMatchingRule rules)) := by
  have hfind : ∀ (text : String) (rules : List Rule),
      findRuleAux text rules = rules.find? (fun r => keywordHit text r.keywords) := by
    intro text rules
    induction rules with
    | nil => rfl
    | cons r rs ih =>
      by_cases h : keywordHit text r.keywords
      · simp [findRuleAux, h, List.find?_cons_of_pos]
      · simp only [Bool.not_eq_true] at h
        simp [findRuleAux, h, List.find?_cons_of_neg, ih]
  refine ⟨?_, ?_, ?_, ?_, ?_, ?_⟩
  · intro text kws
    induction kws with
    | nil => rfl
    | cons kw kws ih => simp [keywordHit, ih]
  · intro rules li
    exact hfind (searchableText li) rules
  · intro rules li r h
    rw [findMatchingRule, hfind] at h
    refine ⟨List.mem_of_find?_eq_some h, ?_⟩
    have h2 := List.find?_some h
    simpa using h2
  · intro rules li
    rw [findMatchingRule, hfind, List.find?_eq_none]
    simp
  · intro rules l₁ l₂ li r hnone hsome
    induction l₁ with
    | nil => simp [firstMatchedRule, hsome]
    | cons x xs ih =>
      have hx : findMatchingRule rules x = none := hnone x (by simp)
      simp only [List.cons_append, firstMatchedRule, hx]
      exact ih (fun y hy => hnone y (by simp [hy]))
  · intro rules lis
    induction lis with
    | nil => rfl
    | cons li lis ih =>
      cases h : findMatchingRule rules li with
      | some r => simp [firstMatchedRule, h, List.findSome?_cons]
      | none => simp [firstMatchedRule, h, List.findSome?_cons, ih]

/-- Witness for C2: the hypothesised conjuncts instantiated at a concrete
rule list and concrete line items (keyword "consign" hits the title
"Consignment Art Piece"; a non-matching line item before it is skipped). -/
theorem claim_C2_witness :
    (c2Rule ∈ [c2Rule] ∧ keywordHit (searchableText c2Item) c2Rule.keywords = true) ∧
    (firstMatchedRule [c2Rule] ([c2Other] ++ c2Item :: [c2Other]) = some c2Rule) := by
  refine ⟨claim_C2.2.2.1 [c2Rule] c2Item c2Rule (by decide),
          claim_C2.2.2.2.2.1 [c2Rule] [c2Other] [c2Other] c2Item c2Rule (by decide) (by decide)⟩

/-- Rounding half-to-even of a non-negative rational is non-negative. -/
theorem roundHalfEven_nonneg (q : ℚ) (h : 0 ≤ q) : 0 ≤ roundHalfEven q := by
  have hf0 : (0 : ℤ) ≤ ⌊q⌋ := Int.floor_nonneg.mpr h
  simp only [roundHalfEven]
  split_ifs <;> omega

/-- Two-decimal rounding of a non-negative rational is non-negative. -/
theorem round2_nonneg (q : ℚ) (h : 0 ≤ q) : 0 ≤ round2 q := by
  unfold round2
  have h1 : (0 : ℚ) ≤ q * 100 := by positivity
  have h2 := roundHalfEven_nonneg (q * 100) h1
  have : (0 : ℚ) ≤ ((roundHalfEven (q * 100) : ℤ) : ℚ) := by exact_mod_cast h2
  positivity

/-- Rounding an integer value is the identity. -/
theorem roundHalfEven_intCast (n : ℤ) : roundHalfEven (n : ℚ) = n := by
  unfold roundHalfEven
  simp [Int.floor_intCast]

/-- A rational that is a whole number of hundredths is fixed by `round2`. -/
theorem round2_of_mul_eq_int (q : ℚ) (n : ℤ) (h : q * 100 = n) : round2 q = q := by
  unfold round2
  rw [h, roundHalfEven_intCast]
  field_simp at h ⊢
  linarith

/-- Emission lemma for the no-match path: the breakdown record the calculator
returns when no rule matches any line item. -/
theorem calc_noMatch (rules : List Rule) (cfg : String) (o : Order)
    (hm : firstMatchedRule rules o.line_items = none) :
    calculateOrderBreakdown rules cfg o = .ok
      { order_id := o.id.getD "", order_number := o.order_number.getD "",
        date := takeStr (o.created_at.getD "") 10, customer := customerName o,
        products := joinStr ", " (productDescriptions o), order_total := o.total_price,
        total_cost := round2 o.total_cost,
        base_amount := max 0 (chosenBase cfg o - o.total_cost),
        revenue := round2 (max 0 (chosenBase cfg o - o.total_cost)),
        investor := 0, state_taxes := 0, federal_taxes := 0, consigner := 0, vendor := 0,
        component_breakdown := [], matched_rules := "No match" } := by
  simp only [calculateOrderBreakdown, hm]

/-- Emission lemma for the matched path: the breakdown record the calculator
returns once the allocation pass succeeded, every monetary total being the
two-decimal rounding of the corresponding full-precision pipeline value. -/
theorem calc_matched (rules : List Rule) (cfg : String) (o : Order) (r : Rule) (a : AllocState)
    (hm : firstMatchedRule rules o.line_items = some r)
    (ha : applyComponents (initAlloc (max 0 (chosenBase cfg o - o.total_cost)))
            (sortComponents (nonTaxComponents r.components)) = .ok a) :
    calculateOrderBreakdown rules cfg o = .ok
      { order_id := o.id.getD "", order_number := o.order_number.getD "",
        date := takeStr (o.created_at.getD "") 10, customer := customerName o,
        products := joinStr ", " (productDescriptions o), order_total := o.total_price,
        total_cost := round2 o.total_cost,
        base_amount := max 0 (chosenBase cfg o - o.total_cost),
        revenue := round2 (max 0
          (taxPass o.total_price o.tax_lines ⟨a.remaining, 0, 0, a.details⟩).remaining),
        investor := round2 a.investor,
        state_taxes := round2
          (taxPass o.total_price o.tax_lines ⟨a.remaining, 0, 0, a.details⟩).state_taxes,
        federal_taxes := round2
          (taxPass o.total_price o.tax_lines ⟨a.remaining, 0, 0, a.details⟩).federal_taxes,
        consigner := round2 a.consigner, vendor := round2 a.vendor,
        component_breakdown :=
          if (taxPass o.total_price o.tax_lines ⟨a.remaining, 0, 0, a.details⟩).details.isEmpty
          then []
          else (taxPass o.total_price o.tax_lines ⟨a.remaining, 0, 0, a.details⟩).details.map
            renderDetail,
        matched_rules := r.description.getD "Unknown rule" } := by
  simp only [calculateOrderBreakdown, hm, ha]

/-- C4: arithmetic edge cases are clamped, never raised — the emitted base
amount is `max 0 (chosen price - total_cost)` for every order, the emitted
revenue is never negative, and a non-positive unclamped remainder always
emits revenue exactly 0 however far negative it went. -/
theorem claim_C4 :
    (∀ (rules : List Rule) (cfg : String) (o : Order) (b : Breakdown),
        calculateOrderBreakdown rules cfg o = .ok b →
        b.base_amount = max 0 (chosenBase cfg o - o.total_cost) ∧ 0 ≤ b.revenue) ∧
    (∀ q : ℚ, q ≤ 0 → round2 (max 0 q) = 0) := by
  constructor
  · intro rules cfg o b h
    cases hm : firstMatchedRule rules o.line_items with
    | none =>
      rw [calc_noMatch rules cfg o hm] at h
      cases h
      exact ⟨rfl, round2_nonneg _ (le_max_left 0 _)⟩
    | some r =>
      cases ha : applyComponents (initAlloc (max 0 (chosenBase cfg o - o.total_cost)))
          (sortComponents (nonTaxComponents r.components)) with
      | error e =>
        simp only [calculateOrderBreakdown, hm, ha] at h
        exact Except.noConfusion h
      | ok a =>
        rw [calc_matched rules cfg o r a hm ha] at h
        cases h
        exact ⟨rfl, round2_nonneg _ (le_max_left 0 _)⟩
  · intro q h
    rw [max_eq_left h]
    unfold round2
    norm_num [roundHalfEven]



def c4wOrder : Order := { subtotal_price := 7, total_cost := 12 }

def c4wB : Breakdown :=
  { order_id := "", order_number := "",
    date := takeStr "" 10, customer := customerName c4wOrder,
    products := joinStr ", " (productDescriptions c4wOrder), order_total := 0,
    total_cost := round2 12,
    base_amount := max 0 (chosenBase "subtotal" c4wOrder - c4wOrder.total_cost),
    revenue := round2 (max 0 (chosenBase "subtotal" c4wOrder - c4wOrder.total_cost)),
    investor := 0, state_taxes := 0, federal_taxes := 0, consigner := 0, vendor := 0,
    component_breakdown := [], matched_rules := "No match" }

/-- Witness for C4: instantiated at an order whose cost 12 exceeds its
subtotal 7 (clamped base) and at the unclamped remainder -5. -/
theorem claim_C4_witness :
    (c4wB.base_amount = max 0 (chosenBase "subtotal" c4wOrder - c4wOrder.total_cost) ∧
      0 ≤ c4wB.revenue) ∧
    round2 (max 0 (-5 : ℚ)) = 0 :=
  ⟨claim_C4.1 [] "subtotal" c4wOrder c4wB (calc_noMatch [] "subtotal" c4wOrder rfl),
   claim_C4.2 (-5) (by decide)⟩

def c5Order : Order := { subtotal_price := 251/250 }

/-- Counterexample for C5 as stated: an order with no matching rule and a
sub-cent base amount 1.004 emits `revenue = 1.00` (two-decimal rounding) while
`base_amount = 1.004` is emitted unrounded, so the emitted revenue is not
equal to the emitted base amount. -/
theorem claim_C5_counterexample :
    (calculateOrderBreakdown [] "subtotal" c5Order).map
        (fun b => (b.base_amount, b.revenue)) = .ok (251/250, 1) ∧
    (1 : ℚ) ≠ 251/250 := by
  constructor
  · rw [calc_noMatch [] "subtotal" c5Order rfl]
    simp only [Except.map]
    norm_num [chosenBase, c5Order, round2, roundHalfEven]
  · norm_num

/-- C5 (amended): for every order without a matching rule the emitted revenue
equals the two-decimal rounding of the emitted base amount — hence equals it
exactly whenever the base is a whole number of hundredths — and investor,
consigner, vendor, state and federal taxes are all exactly 0 with an empty
component breakdown, the tax pass never running. -/
theorem claim_C5 :
    (∀ (rules : List Rule) (cfg : String) (o : Order) (b : Breakdown),
        firstMatchedRule rules o.line_items = none →
        calculateOrderBreakdown rules cfg o = .ok b →
        b.revenue = round2 b.base_amount ∧ b.investor = 0 ∧ b.consigner = 0 ∧
        b.vendor = 0 ∧ b.state_taxes = 0 ∧ b.federal_taxes = 0 ∧
        b.component_breakdown = [] ∧ b.matched_rules = "No match") ∧
    (∀ (q : ℚ) (n : ℤ), q * 100 = n → round2 q = q) := by
  constructor
  · intro rules cfg o b hm h
    rw [calc_noMatch rules cfg o hm] at h
    cases h
    exact ⟨rfl, rfl, rfl, rfl, rfl, rfl, rfl, rfl⟩
  · exact round2_of_mul_eq_int

def c5wB : Breakdown :=
  { order_id := "", order_number := "",
    date := takeStr "" 10, customer := customerName c5Order,
    products := joinStr ", " (productDescriptions c5Order), order_total := 0,
    total_cost := round2 0,
    base_amount := max 0 (chosenBase "subtotal" c5Order - c5Order.total_cost),
    revenue := round2 (max 0 (chosenBase "subtotal" c5Order - c5Order.total_cost)),
    investor := 0, state_taxes := 0, federal_taxes := 0, consigner := 0, vendor := 0,
    component_breakdown := [], matched_rules := "No match" }

/-- Witness for C5: instantiated at the concrete sub-cent order and at the
cent-exact value 5. -/
theorem claim_C5_witness :
    (c5wB.revenue = round2 c5wB.base_amount ∧ c5wB.investor = 0 ∧ c5wB.consigner = 0 ∧
      c5wB.vendor = 0 ∧ c5wB.state_taxes = 0 ∧ c5wB.federal_taxes = 0 ∧
      c5wB.component_breakdown = [] ∧ c5wB.matched_rules = "No match") ∧
    round2 (5 : ℚ) = 5 :=
  ⟨claim_C5.1 [] "subtotal" c5Order c5wB rfl (calc_noMatch [] "subtotal" c5Order rfl),
   claim_C5.2 5 500 (by norm_num)⟩

/-- Membership is preserved by ordered insertion. -/
theorem mem_insertByOrder (c d : Component) (l : List Component) :
    c ∈ insertByOrder d l ↔ c = d ∨ c ∈ l := by
  induction l with
  | nil => simp [insertByOrder]
  | cons e es ih =>
    by_cases h : orderKey d ≤ orderKey e
    · simp [insertByOrder, h]
    · simp [insertByOrder, h, ih]
      tauto

/-- Membership is preserved by the stable sort on the order key. -/
theorem mem_sortComponents (c : Component) (l : List Component) :
    c ∈ sortComponents l ↔ c ∈ l := by
  induction l with
  | nil => simp [sortComponents]
  | cons d ds ih => simp [sortComponents, mem_insertByOrder, ih]

/-- C10: components typed `state_taxes` or `federal_taxes` are filtered out
before the allocation pass (and sorting does not reintroduce anything), and
`revenue`-typed components are skipped inside it leaving the running state
completely unchanged — such components never deduct, never accumulate and
never emit a breakdown line, and are silently ignored rather than rejected. -/
theorem claim_C10 :
    (∀ (cs : List Component) (c : Component),
        c ∈ nonTaxComponents cs ↔
          c ∈ cs ∧ c.type.getD "" ≠ "state_taxes" ∧ c.type.getD "" ≠ "federal_taxes") ∧
    (∀ (l : List Component) (c : Component), c ∈ sortComponents l ↔ c ∈ l) ∧
    (∀ (s : AllocState) (c : Component), c.type = some "revenue" → applyComponent s c = .ok s) ∧
    (∀ (s : AllocState) (cs : List Component), (∀ c ∈ cs, c.type = some "revenue") →
        applyComponents s cs = .ok s) := by
  have hrev : ∀ (s : AllocState) (c : Component), c.type = some "revenue" →
      applyComponent s c = .ok s := by
    intro s c h
    simp [applyComponent, h]
  refine ⟨?_, ?_, hrev, ?_⟩
  · intro cs c
    simp [nonTaxComponents, List.mem_filter]
  · intro l c
    exact mem_sortComponents c l
  · intro s cs hall
    induction cs with
    | nil => rfl
    | cons c cs ih =>
      rw [applyComponents, hrev s c (hall c (by simp))]
      exact ih (fun d hd => hall d (by simp [hd]))

def c10RevComp : Component :=
  { type := some "revenue", calc_type := some "percentage", value := some (.num 30), order := some 1 }

/-- Witness for C10: a concrete revenue-typed component leaves a concrete
allocation state untouched, alone and in a list. -/
theorem claim_C10_witness :
    applyComponent ⟨50, 1, 2, 3, []⟩ c10RevComp = .ok ⟨50, 1, 2, 3, []⟩ ∧
    applyComponents ⟨50, 1, 2, 3, []⟩ [c10RevComp, c10RevComp] = .ok ⟨50, 1, 2, 3, []⟩ :=
  ⟨claim_C10.2.2.1 ⟨50, 1, 2, 3, []⟩ c10RevComp rfl,
   claim_C10.2.2.2 ⟨50, 1, 2, 3, []⟩ [c10RevComp, c10RevComp] (by decide)⟩

def c7Mystery : Component :=
  { type := some "mystery", calc_type := some "bogus", value := some (.num 50), order := some 1 }

/-- Counterexample for C7 as stated: a component with unknown type "mystery"
and unknown calc_type "bogus" is processed without any failure — the
calculator returns a normal state (no fail-fast), deducts the percentage
amount from the remaining total and accumulates it into no total. -/
theorem claim_C7_counterexample :
    (applyComponent ⟨100, 0, 0, 0, []⟩ c7Mystery).isOk = true ∧
    (applyComponent ⟨100, 0, 0, 0, []⟩ c7Mystery).map AllocState.remaining
      = .ok (100 - 100 * (50 / 100)) ∧
    (applyComponent ⟨100, 0, 0, 0, []⟩ c7Mystery).map
        (fun s => (s.investor, s.consigner, s.vendor)) = .ok (0, 0, 0) := by
  refine ⟨?_, ?_, ?_⟩ <;>
    simp [applyComponent, c7Mystery, floatOfValue, Except.map, Except.isOk, Except.toBool]

/-- C7 (amended): component records missing type, calc_type, value or order
are rejected by the rule add/update endpoints and never reach the calculator;
the calculator however does not fail fast on unknown strings — any component
with a convertible value is processed successfully, an unknown calc_type
falls into the percentage branch, and an unknown type accumulates into no
total. -/
theorem claim_C7 :
    (validateRuleComponents [] = some "At least one component is required") ∧
    (∀ (cs : List Component) (c : Component), c ∈ cs → componentHasRequiredFields c = false →
        (validateRuleComponents cs).isSome = true) ∧
    (∀ (cs : List Component), cs ≠ [] → (∀ c ∈ cs, componentHasRequiredFields c = true) →
        validateRuleComponents cs = none) ∧
    (∀ (s : AllocState) (c : Component) (v : ℚ), floatOfValue c.value = .ok v →
        (applyComponent s c).isOk = true) ∧
    (∀ (s : AllocState) (c : Component) (v : ℚ) (ct : String),
        c.calc_type = some ct → ct ≠ "flat" → floatOfValue c.value = .ok v →
        c.type.getD "" ≠ "revenue" →
        (applyComponent s c).map AllocState.remaining
          = .ok (s.remaining - s.remaining * (v / 100))) ∧
    (∀ (s : AllocState) (c : Component) (s' : AllocState) (t : String),
        applyComponent s c = .ok s' → c.type = some t →
        t ≠ "investor" → t ≠ "consigner" → t ≠ "vendor" →
        s'.investor = s.investor ∧ s'.consigner = s.consigner ∧ s'.vendor = s.vendor) := by
  refine ⟨rfl, ?_, ?_, ?_, ?_, ?_⟩
  · intro cs c hc hbad
    rw [validateRuleComponents]
    have hne : ¬ cs.isEmpty := by
      cases cs with
      | nil => cases hc
      | cons d ds => simp
    rw [if_neg hne]
    have hall : cs.all componentHasRequiredFields = false := by
      rw [List.all_eq_false]
      exact ⟨c, hc, by simp [hbad]⟩
    rw [hall]
    simp
  · intro cs hne hall
    rw [validateRuleComponents]
    rw [if_neg (by simpa using hne)]
    rw [if_pos (by rw [List.all_eq_true]; intro c hc; exact hall c hc)]
  · intro s c v hv
    by_cases hty : c.type.getD "" = "revenue"
    · simp [applyComponent, hty, Except.isOk, Except.toBool]
    · simp [applyComponent, hty, hv, Except.isOk, Except.toBool]
  · intro s c v ct hct hctne hv hty
    have h2 : (c.calc_type.getD "percentage" = "flat") = False := by
      simp [hct, hctne]
    simp [applyComponent, hty, hv, h2, Except.map]
  · intro s c s' t happ hty ht1 ht2 ht3
    have hty' : c.type.getD "" = t := by rw [hty]; rfl
    by_cases hrev : t = "revenue"
    · rw [applyComponent, hty', hrev, if_pos rfl] at happ
      cases happ
      exact ⟨rfl, rfl, rfl⟩
    · rw [applyComponent, hty', if_neg hrev] at happ
      cases hv : floatOfValue c.value with
      | error e => rw [hv] at happ; cases happ
      | ok v =>
        rw [hv] at happ
        simp only [Except.ok.injEq] at happ
        subst happ
        simp [hty', ht1, ht2, ht3]



def c7Missing : Component := { type := some "investor" }

def c7MysteryState : AllocState :=
  ⟨100 - 100 * (50 / 100), 0, 0, 0,
    [⟨"mystery", stripStr "", displayNameFor "mystery" (stripStr ""), 100 * (50 / 100)⟩]⟩

/-- Witness for C7: instantiated at a component missing its calc_type, at the
fully-keyed "mystery"/"bogus" component, and at the concrete state it
produces. -/
theorem claim_C7_witness :
    (validateRuleComponents [c7Missing]).isSome = true ∧
    validateRuleComponents [c7Mystery] = none ∧
    (applyComponent ⟨100, 0, 0, 0, []⟩ c7Mystery).isOk = true ∧
    ((applyComponent ⟨100, 0, 0, 0, []⟩ c7Mystery).map AllocState.remaining
      = .ok (100 - 100 * (50 / 100))) ∧
    (c7MysteryState.investor = 0 ∧ c7MysteryState.consigner = 0 ∧ c7MysteryState.vendor = 0) :=
  ⟨claim_C7.2.1 [c7Missing] c7Missing (by decide) (by decide),
   claim_C7.2.2.1 [c7Mystery] (by decide) (by decide),
   claim_C7.2.2.2.1 ⟨100, 0, 0, 0, []⟩ c7Mystery 50 rfl,
   claim_C7.2.2.2.2.1 ⟨100, 0, 0, 0, []⟩ c7Mystery 50 "bogus" rfl (by decide) rfl (by decide),
   claim_C7.2.2.2.2.2 ⟨100, 0, 0, 0, []⟩ c7Mystery c7MysteryState "mystery"
     (by simp [applyComponent, c7Mystery, c7MysteryState, floatOfValue])
     rfl (by decide) (by decide) (by decide)⟩

def c8BadRule : Rule :=
  { description := some "Gadget rule", keywords := ["gadget"],
    components :=
      [{ type := some "investor", calc_type := some "flat",
         value := some (.junk "oops"), order := some 1 }] }

def c8Order1 : Order := { line_items := [{ title := some "Gadget X" }], subtotal_price := 100 }

def c8Order2 : Order := { line_items := [{ title := some "Plain Mug" }], subtotal_price := 50 }

/-- Computation of the first batch order of the C8 scenario: its matched rule
carries a non-numeric component value, so the calculator raises. -/
theorem c8_order1_fails :
    calculateOrderBreakdown [c8BadRule] "subtotal" c8Order1
      = .error "could not convert string to float: oops" := by
  have hm : firstMatchedRule [c8BadRule] c8Order1.line_items = some c8BadRule := by decide
  simp only [calculateOrderBreakdown, hm]
  simp [c8BadRule, nonTaxComponents, sortComponents, insertByOrder, orderKey,
    applyComponents, applyComponent, floatOfValue, initAlloc]

/-- Counterexample for C8 as stated: a two-order batch whose first order hits
a rule with a malformed component value aborts entirely with that error — no
record is produced for the second order even though its own breakdown
computes fine in isolation. -/
theorem claim_C8_counterexample :
    processOrders [c8BadRule] "subtotal" [c8Order1, c8Order2]
      = .error "could not convert string to float: oops" ∧
    (calculateOrderBreakdown [c8BadRule] "subtotal" c8Order2).isOk = true := by
  constructor
  · simp [processOrders, c8_order1_fails]
  · have hm : firstMatchedRule [c8BadRule] c8Order2.line_items = none := by decide
    rw [calc_noMatch [c8BadRule] "subtotal" c8Order2 hm]
    simp [Except.isOk, Except.toBool]

/-- C8 (amended): `process_orders` has no per-order error isolation — as soon
as one order's breakdown computation fails, the whole batch evaluates to that
error and no breakdown list is produced at all, regardless of how many orders
before or after it would succeed. -/
theorem claim_C8 :
    ∀ (rules : List Rule) (cfg : String) (pre post : List Order) (o : Order) (e : String),
      (∀ p ∈ pre, (calculateOrderBreakdown rules cfg p).isOk = true) →
      calculateOrderBreakdown rules cfg o = .error e →
      processOrders rules cfg (pre ++ o :: post) = .error e := by
  intro rules cfg pre post o e hpre herr
  induction pre with
  | nil => simp [processOrders, herr]
  | cons p ps ih =>
    have hp := hpre p (by simp)
    cases hcalc : calculateOrderBreakdown rules cfg p with
    | error e2 => rw [hcalc] at hp; simp [Except.isOk, Except.toBool] at hp
    | ok b =>
      have ihp := ih (fun q hq => hpre q (by simp [hq]))
      simp only [List.cons_append, processOrders, hcalc, List.append_eq, ihp]

/-- Witness for C8: the abort propagation instantiated at the concrete batch
with one succeeding order before the failing one. -/
theorem claim_C8_witness :
    processOrders [c8BadRule] "subtotal" ([c8Order2] ++ c8Order1 :: [])
      = .error "could not convert string to float: oops" :=
  claim_C8 [c8BadRule] "subtotal" [c8Order2] [] c8Order1
    "could not convert string to float: oops"
    (by
      intro p hp
      simp only [List.mem_singleton] at hp
      subst hp
      rw [calc_noMatch [c8BadRule] "subtotal" c8Order2 (by decide)]
      simp [Except.isOk, Except.toBool])
    c8_order1_fails

def c6Rule : Rule :=
  { description := some "Art rule", keywords := ["art"],
    components := [
      { type := some "consigner", calc_type := some "flat", value := some (.num 150), order := some 1 },
      { type := some "investor", calc_type := some "percentage", value := some (.num 20), order := some 2 } ] }

def c6Order : Order :=
  { line_items := [{ title := some "Art Bowl" }], subtotal_price := 100, total_price := 100 }

def c6A : AllocState :=
  ⟨-40, -10, 150, 0,
    [⟨"consigner", stripStr "", displayNameFor "consigner" (stripStr ""), 150⟩,
     ⟨"investor", stripStr "", displayNameFor "investor" (stripStr ""), -10⟩]⟩

/-- Allocation pass of the C6 scenario: a flat deduction of 150 on a base of
100 drives the remaining amount to -50, and the following 20 percent
component then contributes the negative amount -10 to the investor total. -/
theorem c6_alloc :
    applyComponents (initAlloc (max 0 (chosenBase "subtotal" c6Order - c6Order.total_cost)))
      (sortComponents (nonTaxComponents c6Rule.components)) = .ok c6A := by
  simp [applyComponents, applyComponent, sortComponents, insertByOrder, orderKey,
    nonTaxComponents, initAlloc, chosenBase, floatOfValue, c6Rule, c6Order, c6A]
  norm_num

/-- Counterexample for C6 as stated: with base 100, a flat consigner
component of 150 followed by a 20 percent investor component, the emitted
investor total is -10.00 — an emitted monetary total that is negative. -/
theorem claim_C6_counterexample :
    (calculateOrderBreakdown [c6Rule] "subtotal" c6Order).map (fun b => b.investor)
      = .ok (-10) ∧ ¬ (0 : ℚ) ≤ (-10 : ℚ) := by
  have hm : firstMatchedRule [c6Rule] c6Order.line_items = some c6Rule := by decide
  constructor
  · rw [calc_matched [c6Rule] "subtotal" c6Order c6Rule c6A hm c6_alloc]
    simp only [Except.map]
    norm_num [c6A, round2, roundHalfEven]
  · norm_num

/-- C6 (amended): every emitted monetary total is the two-decimal rounding,
applied at the point of emission only, of the corresponding full-precision
pipeline value (the allocation totals and the post-tax remaining amount), and
the emitted revenue is always non-negative; the per-type allocation totals
themselves are not clamped and can be negative when earlier flat deductions
drive the remaining amount negative. -/
theorem claim_C6 :
    ∀ (rules : List Rule) (cfg : String) (o : Order) (r : Rule) (a : AllocState),
      firstMatchedRule rules o.line_items = some r →
      applyComponents (initAlloc (max 0 (chosenBase cfg o - o.total_cost)))
          (sortComponents (nonTaxComponents r.components)) = .ok a →
      ((calculateOrderBreakdown rules cfg o).map
          (fun b => (b.revenue, b.investor, b.consigner, b.vendor, b.state_taxes,
            b.federal_taxes))
        = .ok
          (round2 (max 0
              (taxPass o.total_price o.tax_lines ⟨a.remaining, 0, 0, a.details⟩).remaining),
            round2 a.investor, round2 a.consigner, round2 a.vendor,
            round2 (taxPass o.total_price o.tax_lines ⟨a.remaining, 0, 0, a.details⟩).state_taxes,
            round2 (taxPass o.total_price o.tax_lines
              ⟨a.remaining, 0, 0, a.details⟩).federal_taxes)) ∧
      0 ≤ round2 (max 0
        (taxPass o.total_price o.tax_lines ⟨a.remaining, 0, 0, a.details⟩).remaining) := by
  intro rules cfg o r a hm ha
  constructor
  · rw [calc_matched rules cfg o r a hm ha]
    simp only [Except.map]
  · exact round2_nonneg _ (le_max_left 0 _)

/-- Witness for C6: the emission relation instantiated at the concrete
over-deducting scenario. -/
theorem claim_C6_witness :
    ((calculateOrderBreakdown [c6Rule] "subtotal" c6Order).map
        (fun b => (b.revenue, b.investor, b.consigner, b.vendor, b.state_taxes,
          b.federal_taxes))
      = .ok
        (round2 (max 0
            (taxPass c6Order.total_price c6Order.tax_lines
              ⟨c6A.remaining, 0, 0, c6A.details⟩).remaining),
          round2 c6A.investor, round2 c6A.consigner, round2 c6A.vendor,
          round2 (taxPass c6Order.total_price c6Order.tax_lines
            ⟨c6A.remaining, 0, 0, c6A.details⟩).state_taxes,
          round2 (taxPass c6Order.total_price c6Order.tax_lines
            ⟨c6A.remaining, 0, 0, c6A.details⟩).federal_taxes)) ∧
    0 ≤ round2 (max 0
      (taxPass c6Order.total_price c6Order.tax_lines
        ⟨c6A.remaining, 0, 0, c6A.details⟩).remaining) :=
  claim_C6 [c6Rule] "subtotal" c6Order c6Rule c6A (by decide) c6_alloc



/-- Rule of the C9 tax-line scenario. -/
def c9Rule : Rule :=
  { description := some "Art rule", keywords := ["art"],
    components := [
      { type := some "investor", calc_type := some "percentage", value := some (.num 10), order := some 1 } ] }

/-- Order of the C9 scenario: three tax lines of 10 percent each, the third
titled with the lower-case string "env fee". -/
def c9Order : Order :=
  { line_items := [{ title := some "Art Print" }], subtotal_price := 100, total_price := 100,
    tax_lines := [
      { title := some "state t", rate_percentage := some 10 },
      { title := some "fed t", rate_percentage := some 10 },
      { title := some "env fee", rate_percentage := some 10 } ] }

def c9A : AllocState :=
  ⟨90, 10, 0, 0, [⟨"investor", stripStr "", displayNameFor "investor" (stripStr ""), 10⟩]⟩

/-- Allocation pass of the C9 scenario: 10 percent of 100 to the investor. -/
theorem c9_alloc :
    applyComponents (initAlloc (max 0 (chosenBase "subtotal" c9Order - c9Order.total_cost)))
      (sortComponents (nonTaxComponents c9Rule.components)) = .ok c9A := by
  simp [applyComponents, applyComponent, sortComponents, insertByOrder, orderKey,
    nonTaxComponents, initAlloc, chosenBase, floatOfValue, c9Rule, c9Order, c9A]
  norm_num

/-- Tax pass of the C9 scenario: 9 at position 0 (state), 8.10 at position 1
(federal), 7.29 at position 2 (additional, folded into state). -/
theorem c9_tax :
    taxPass c9Order.total_price c9Order.tax_lines ⟨c9A.remaining, 0, 0, c9A.details⟩
      = ⟨6561/100, 9 + 729/100, 81/10,
          c9A.details ++
            [⟨"state_taxes", "", "State Taxes", 9⟩,
             ⟨"federal_taxes", "", "Federal Taxes", 81/10⟩,
             ⟨"state_taxes", "", "Additional Tax (env fee)", 729/100⟩]⟩ := by
  simp [taxPass, taxPassAux, taxLineStep, taxAmountOf, c9A, c9Order]
  norm_num

/-- Two-decimal rendering of the third tax amount of the C9 scenario. -/
theorem fmt2_c9 : fmt2 (729/100) = "7.29" := by
  simp only [fmt2]
  norm_num [roundHalfEven]
  decide

/-- Counterexample for C9 as stated: the breakdown entry synthesized for the
third tax line is "Additional Tax (env fee): $7.29" — its display name is not
the Title-Cased type of the detail (which is state_taxes, so a claim-shaped
entry would start with "State Taxes"), and the inner title is kept verbatim,
not title-cased. -/
theorem claim_C9_counterexample :
    (calculateOrderBreakdown [c9Rule] "subtotal" c9Order).map
        (fun b => b.component_breakdown.getD 3 "")
      = .ok "Additional Tax (env fee): $7.29" ∧
    ("State Taxes".data.isPrefixOf "Additional Tax (env fee): $7.29".data) = false := by
  constructor
  · have hm : firstMatchedRule [c9Rule] c9Order.line_items = some c9Rule := by decide
    rw [calc_matched [c9Rule] "subtotal" c9Order c9Rule c9A hm c9_alloc]
    rw [c9_tax]
    simp only [Except.map, c9A]
    simp [renderDetail, fmt2_c9]
  · decide



/-- C9 (amended): every component_breakdown entry is rendered at string-level
as display name, the separator ": $" and the amount formatted to two decimals
at render time, in actual application order; for allocation components the
display name is the Title-Cased type with a " - label" suffix exactly when
the stripped label is nonempty, for tax positions 0 and 1 it is the
Title-Cased bucket type ("State Taxes" / "Federal Taxes"), and for positions
2 and above it is "Additional Tax (<verbatim title>)". -/
theorem claim_C9 :
    (∀ (s : AllocState) (c : Component) (s' : AllocState),
        applyComponent s c = .ok s' → c.type.getD "" ≠ "revenue" →
        ∃ amt, s'.details = s.details ++
          [⟨c.type.getD "", stripStr (c.label.getD ""),
            displayNameFor (c.type.getD "") (stripStr (c.label.getD "")), amt⟩]) ∧
    (∀ (t l : String), l ≠ "" → displayNameFor t l = displayBase t ++ " - " ++ l) ∧
    (∀ t : String, displayNameFor t "" = displayBase t) ∧
    (∀ d : Detail, renderDetail d = d.display_name ++ ": $" ++ fmt2 d.amount) ∧
    (∀ (tp : ℚ) (st : TaxState) (tl : TaxLine) (ta : ℚ),
        taxAmountOf tp st.remaining tl = some ta →
        (taxLineStep tp 0 st tl).details
          = st.details ++ [⟨"state_taxes", "", "State Taxes", ta⟩]) ∧
    (∀ (tp : ℚ) (st : TaxState) (tl : TaxLine) (ta : ℚ),
        taxAmountOf tp st.remaining tl = some ta →
        (taxLineStep tp 1 st tl).details
          = st.details ++ [⟨"federal_taxes", "", "Federal Taxes", ta⟩]) ∧
    (∀ (tp : ℚ) (st : TaxState) (tl : TaxLine) (ta : ℚ) (i : ℕ), 2 ≤ i →
        taxAmountOf tp st.remaining tl = some ta →
        (taxLineStep tp i st tl).details
          = st.details ++ [⟨"state_taxes", "",
              "Additional Tax (" ++ tl.title.getD "Tax" ++ ")", ta⟩]) ∧
    ("State Taxes" = displayBase "state_taxes" ∧
      "Federal Taxes" = displayBase "federal_taxes") ∧
    (∀ (rules : List Rule) (cfg : String) (o : Order) (r : Rule) (a : AllocState),
        firstMatchedRule rules o.line_items = some r →
        applyComponents (initAlloc (max 0 (chosenBase cfg o - o.total_cost)))
            (sortComponents (nonTaxComponents r.components)) = .ok a →
        (calculateOrderBreakdown rules cfg o).map (fun b => b.component_breakdown)
          = .ok (if (taxPass o.total_price o.tax_lines
                ⟨a.remaining, 0, 0, a.details⟩).details.isEmpty then []
              else (taxPass o.total_price o.tax_lines
                ⟨a.remaining, 0, 0, a.details⟩).details.map renderDetail)) := by
  refine ⟨?_, ?_, ?_, ?_, ?_, ?_, ?_, ⟨by decide, by decide⟩, ?_⟩
  · intro s c s' happ hty
    rw [applyComponent, if_neg hty] at happ
    cases hv : floatOfValue c.value with
    | error e => rw [hv] at happ; cases happ
    | ok v =>
      rw [hv] at happ
      simp only [Except.ok.injEq] at happ
      subst happ
      exact ⟨if c.calc_type.getD "percentage" = "flat" then v else s.remaining * (v / 100),
        by simp⟩
  · intro t l h
    simp [displayNameFor, h]
  · intro t
    simp [displayNameFor]
  · intro d
    rfl
  · intro tp st tl ta hta
    simp [taxLineStep, hta]
  · intro tp st tl ta hta
    simp [taxLineStep, hta]
  · intro tp st tl ta i hi hta
    have h0 : i ≠ 0 := by omega
    have h1 : i ≠ 1 := by omega
    simp [taxLineStep, hta, h0, h1]
  · intro rules cfg o r a hm ha
    rw [calc_matched rules cfg o r a hm ha]
    simp only [Except.map]

def c9wComp : Component :=
  { type := some "investor", label := some " Bank A ", calc_type := some "flat",
    value := some (.num 5), order := some 1 }

def c9TL : TaxLine := { title := some "state t", rate_percentage := some 10 }

/-- Witness for C9: the detail-shape conjuncts instantiated at a labelled
investor component and at concrete tax-line steps, and the emission conjunct
at the three-tax-line scenario. -/
theorem claim_C9_witness :
    (∃ amt, (AllocState.details ⟨100 - 5, 0 + 5, 0, 0,
        [⟨"investor", stripStr " Bank A ",
          displayNameFor "investor" (stripStr " Bank A "), 5⟩]⟩)
      = (AllocState.details ⟨100, 0, 0, 0, []⟩) ++
        [⟨c9wComp.type.getD "", stripStr (c9wComp.label.getD ""),
          displayNameFor (c9wComp.type.getD "") (stripStr (c9wComp.label.getD "")), amt⟩]) ∧
    displayNameFor "investor" "Bank A" = displayBase "investor" ++ " - " ++ "Bank A" ∧
    ((taxLineStep 100 0 ⟨90, 0, 0, []⟩ c9TL).details
      = (TaxState.details ⟨90, 0, 0, []⟩) ++
        [⟨"state_taxes", "", "State Taxes", 90 * (10 / 100)⟩]) ∧
    ((taxLineStep 100 5 ⟨90, 0, 0, []⟩ c9TL).details
      = (TaxState.details ⟨90, 0, 0, []⟩) ++
        [⟨"state_taxes", "", "Additional Tax (" ++ c9TL.title.getD "Tax" ++ ")",
          90 * (10 / 100)⟩]) ∧
    ((calculateOrderBreakdown [c9Rule] "subtotal" c9Order).map
        (fun b => b.component_breakdown)
      = .ok (if (taxPass c9Order.total_price c9Order.tax_lines
            ⟨c9A.remaining, 0, 0, c9A.details⟩).details.isEmpty then []
          else (taxPass c9Order.total_price c9Order.tax_lines
            ⟨c9A.remaining, 0, 0, c9A.details⟩).details.map renderDetail)) :=
  ⟨claim_C9.1 ⟨100, 0, 0, 0, []⟩ c9wComp
      ⟨100 - 5, 0 + 5, 0, 0,
        [⟨"investor", stripStr " Bank A ",
          displayNameFor "investor" (stripStr " Bank A "), 5⟩]⟩
      (by simp [applyComponent, c9wComp, floatOfValue]) (by decide),
   claim_C9.2.1 "investor" "Bank A" (by decide),
   claim_C9.2.2.2.2.1 100 ⟨90, 0, 0, []⟩ c9TL (90 * (10 / 100))
     (by norm_num [taxAmountOf, c9TL]),
   claim_C9.2.2.2.2.2.2.1 100 ⟨90, 0, 0, []⟩ c9TL (90 * (10 / 100)) 5 (by decide)
     (by norm_num [taxAmountOf, c9TL]),
   claim_C9.2.2.2.2.2.2.2.2 [c9Rule] "subtotal" c9Order c9Rule c9A (by decide) c9_alloc⟩



/-- Definition following claim C3's words literally (for comparison with the
embedded code): an implied rate of `amount / total_price` substituted into
the stated formula `tax_amount = remaining × rate / 100`. -/
def specC3FallbackTaxAmount (total_price remaining amount : ℚ) : ℚ :=
  remaining * ((amount / total_price) / 100)

/-- Counterexample for C3 as stated: on the proportional fallback branch
(amount 8, order total 100, remaining 100, no rates) the code charges
`remaining × amount / total_price = 8`, while the claim's formula — implied
rate `amount / total_price` fed into `remaining × rate / 100` — would charge
0.08; the two differ by a factor of 100. -/
theorem claim_C3_counterexample :
    taxAmountOf 100 100 { amount := some 8 } = some 8 ∧
    specC3FallbackTaxAmount 100 100 8 = 2/25 ∧
    (8 : ℚ) ≠ 2/25 := by
  refine ⟨by norm_num [taxAmountOf], by norm_num [specC3FallbackTaxAmount], by norm_num⟩

/-- C3 (amended): the tax pass is skipped when the order has no tax lines or
the remaining amount is not positive; per line, the rate on the 0-100 scale
prefers a truthy rate_percentage, else rate × 100, else the implied
proportional rate (amount / total_price) × 100 — so the charged amount is
`remaining × rate / 100`, which on the fallback branch equals
`remaining × amount / total_price` — and a line with zero total price and no
rate is skipped unchanged; position 0 is assigned to state taxes, position 1
to federal taxes, and every later position is added into state taxes with an
"Additional Tax (<title>)" breakdown line. -/
theorem claim_C3 :
    (∀ (tp : ℚ) (st : TaxState), taxPass tp [] st = st) ∧
    (∀ (tp : ℚ) (tls : List TaxLine) (st : TaxState), st.remaining ≤ 0 →
        taxPass tp tls st = st) ∧
    (∀ (tp rem : ℚ) (tl : TaxLine), tl.rate_percentage.getD 0 ≠ 0 →
        taxAmountOf tp rem tl = some (rem * (tl.rate_percentage.getD 0 / 100))) ∧
    (∀ (tp rem : ℚ) (tl : TaxLine), tl.rate_percentage.getD 0 = 0 → tl.rate.getD 0 ≠ 0 →
        taxAmountOf tp rem tl = some (rem * ((tl.rate.getD 0 * 100) / 100))) ∧
    (∀ (tp rem : ℚ) (tl : TaxLine), tl.rate_percentage.getD 0 = 0 → tl.rate.getD 0 = 0 →
        0 < tp → taxAmountOf tp rem tl = some (rem * (tl.amount.getD 0 / tp))) ∧
    (∀ (rem : ℚ) (tl : TaxLine), tl.rate_percentage.getD 0 = 0 → tl.rate.getD 0 = 0 →
        taxAmountOf 0 rem tl = none) ∧
    (∀ (tp : ℚ) (st : TaxState) (tl : TaxLine) (ta : ℚ),
        taxAmountOf tp st.remaining tl = some ta →
        taxLineStep tp 0 st tl =
          { st with
              remaining := st.remaining - ta, state_taxes := ta,
              details := st.details ++ [⟨"state_taxes", "", "State Taxes", ta⟩] }) ∧
    (∀ (tp : ℚ) (st : TaxState) (tl : TaxLine) (ta : ℚ),
        taxAmountOf tp st.remaining tl = some ta →
        taxLineStep tp 1 st tl =
          { st with
              remaining := st.remaining - ta, federal_taxes := ta,
              details := st.details ++ [⟨"federal_taxes", "", "Federal Taxes", ta⟩] }) ∧
    (∀ (tp : ℚ) (st : TaxState) (tl : TaxLine) (ta : ℚ) (i : ℕ), 2 ≤ i →
        taxAmountOf tp st.remaining tl = some ta →
        taxLineStep tp i st tl =
          { st with
              remaining := st.remaining - ta, state_taxes := st.state_taxes + ta,
              details := st.details ++ [⟨"state_taxes", "",
                "Additional Tax (" ++ tl.title.getD "Tax" ++ ")", ta⟩] }) ∧
    (∀ (tp : ℚ) (st : TaxState) (tl : TaxLine) (i : ℕ),
        taxAmountOf tp st.remaining tl = none → taxLineStep tp i st tl = st) := by
  refine ⟨?_, ?_, ?_, ?_, ?_, ?_, ?_, ?_, ?_, ?_⟩
  · intro tp st
    simp [taxPass]
  · intro tp tls st h
    rw [taxPass, if_neg (fun hc => absurd hc.2 (not_lt.mpr h))]
  · intro tp rem tl h
    rw [taxAmountOf, if_pos h]
  · intro tp rem tl h1 h2
    rw [taxAmountOf, if_neg (by simp [h1]), if_pos h2]
    congr 1
    rw [mul_div_cancel_right₀ _ (by norm_num : (100 : ℚ) ≠ 0)]
  · intro tp rem tl h1 h2 h3
    rw [taxAmountOf, if_neg (by simp [h1]), if_neg (by simp [h2]), if_pos h3]
  · intro rem tl h1 h2
    rw [taxAmountOf, if_neg (by simp [h1]), if_neg (by simp [h2]), if_neg (by norm_num)]
  · intro tp st tl ta hta
    simp [taxLineStep, hta]
  · intro tp st tl ta hta
    simp [taxLineStep, hta]
  · intro tp st tl ta i hi hta
    have h0 : i ≠ 0 := by omega
    have h1 : i ≠ 1 := by omega
    simp [taxLineStep, hta, h0, h1]
  · intro tp st tl i h
    simp [taxLineStep, h]

def c3TLrp : TaxLine := { title := some "ca state", rate_percentage := some 10 }

def c3TLrate : TaxLine := { title := some "us fed", rate := some 2 }

def c3TLamt : TaxLine := { title := some "prop", amount := some 8 }

/-- Witness for C3: the guard, the three rate branches, the zero-total-price
skip and the three positional assignments instantiated at concrete tax
lines. -/
theorem claim_C3_witness :
    (taxPass 100 [c3TLrp] ⟨-5, 0, 0, []⟩ = ⟨-5, 0, 0, []⟩) ∧
    (taxAmountOf 100 90 c3TLrp = some (90 * (c3TLrp.rate_percentage.getD 0 / 100))) ∧
    (taxAmountOf 100 90 c3TLrate = some (90 * ((c3TLrate.rate.getD 0 * 100) / 100))) ∧
    (taxAmountOf 100 90 c3TLamt = some (90 * (c3TLamt.amount.getD 0 / 100))) ∧
    (taxAmountOf 0 90 c3TLamt = none) ∧
    (taxLineStep 100 0 ⟨90, 0, 0, []⟩ c3TLrp
      = { remaining := 90 - 90 * (c3TLrp.rate_percentage.getD 0 / 100),
          state_taxes := 90 * (c3TLrp.rate_percentage.getD 0 / 100), federal_taxes := 0,
          details := [] ++ [⟨"state_taxes", "", "State Taxes",
            90 * (c3TLrp.rate_percentage.getD 0 / 100)⟩] }) ∧
    (taxLineStep 100 7 ⟨90, 0, 0, []⟩ c3TLrp
      = { remaining := 90 - 90 * (c3TLrp.rate_percentage.getD 0 / 100),
          state_taxes := 0 + 90 * (c3TLrp.rate_percentage.getD 0 / 100), federal_taxes := 0,
          details := [] ++ [⟨"state_taxes", "",
            "Additional Tax (" ++ c3TLrp.title.getD "Tax" ++ ")",
            90 * (c3TLrp.rate_percentage.getD 0 / 100)⟩] }) ∧
    (taxLineStep 0 3 ⟨90, 0, 0, []⟩ c3TLamt = ⟨90, 0, 0, []⟩) :=
  ⟨claim_C3.2.1 100 [c3TLrp] ⟨-5, 0, 0, []⟩ (by decide),
   claim_C3.2.2.1 100 90 c3TLrp (by decide),
   claim_C3.2.2.2.1 100 90 c3TLrate (by decide) (by decide),
   claim_C3.2.2.2.2.1 100 90 c3TLamt (by decide) (by decide) (by decide),
   claim_C3.2.2.2.2.2.1 90 c3TLamt (by decide) (by decide),
   claim_C3.2.2.2.2.2.2.1 100 ⟨90, 0, 0, []⟩ c3TLrp
     (90 * (c3TLrp.rate_percentage.getD 0 / 100)) rfl,
   claim_C3.2.2.2.2.2.2.2.2.1 100 ⟨90, 0, 0, []⟩ c3TLrp
     (90 * (c3TLrp.rate_percentage.getD 0 / 100)) 7 (by decide) rfl,
   claim_C3.2.2.2.2.2.2.2.2.2 0 ⟨90, 0, 0, []⟩ c3TLamt 3 (by norm_num [taxAmountOf, c3TLamt])⟩

end RuleEngine
